import Mathlib

/-!
# Tinko-Site retry engine: shallow embedding and verification

This file embeds the retry scheduling and dispatch engine of the repository
(`backend/retry_engine.py`, `backend/app.py`,
`backend/message_providers/whatsapp_gupshup.py`) as executable Lean
definitions and proves/refutes the specification's claims about it.

Modelling conventions:
* timestamps and durations are rationals (seconds);
* database tables are Lean lists of rows, in insertion order; SQL `UPDATE`
  is a `List.map` guarded by the `WHERE` clause, inserts append;
* persistence is modelled as reliable (the `execute_query` error path that
  returns `None` on connection failure is not taken);
* Python `float(...)` on a finite decimal string is modelled exactly: as in
  CPython, Unicode decimal digits (category Nd) and Unicode whitespace are
  first transformed to their ASCII counterparts, surrounding whitespace is
  dropped, PEP 515 underscores (legal only directly between digits) are
  validated and removed, and then sign, digits, fraction and exponent are
  parsed into an exact rational; `inf`/`nan` literals are rejected here —
  the engine rejects them anyway while building the `timedelta`
  (OverflowError/ValueError, token skipped), so the delay list is identical;
* the wall clock read inside the `enqueue_retry` loop is a function
  `nowAt : ℕ → ℚ` giving the clock value observed at iteration `i`.
-/

namespace Tinko

/-- Status of a `recovery_attempts` row. -/
inductive AttemptStatus
  | scheduled
  | sent
  | failed
  | cancelled
  deriving DecidableEq, Repr

/-- Status of a `payment_events` row. -/
inductive EventStatus
  | failed
  | recovered
  deriving DecidableEq, Repr

/-- One row of the `payment_events` table. -/
structure PaymentEventRow where
  merchant_id : String
  razorpay_payment_id : String
  customer_email : Option String
  customer_phone : Option String
  amount : Option Int
  currency : Option String
  status : EventStatus
  failure_reason : Option String
  deriving DecidableEq, Repr

/-- One row of the `recovery_attempts` table. -/
structure RecoveryAttemptRow where
  id : Nat
  merchant_id : String
  razorpay_payment_id : String
  channel : String
  attempt_no : Nat
  scheduled_at : ℚ
  status : AttemptStatus
  sent_at : Option ℚ
  error : Option String
  deriving DecidableEq, Repr

/-- The persistent store: both tables plus the id generator for attempt rows. -/
structure DB where
  payment_events : List PaymentEventRow
  recovery_attempts : List RecoveryAttemptRow
  next_id : Nat
  deriving DecidableEq, Repr

/-- An APScheduler date job: `add_job(..., id=str(attempt_id), run_date=scheduled_at)`. -/
structure Job where
  id : Nat
  runDate : ℚ
  deriving DecidableEq, Repr

/-- The BackgroundScheduler state observable by the code under study. -/
structure Sched where
  running : Bool
  jobs : List Job
  deriving DecidableEq, Repr

/-- Python `a or b` on an optional string: `None` and `""` are falsy. -/
def pyOrStr (a : Option String) (b : String) : String :=
  match a with
  | some s => if s = "" then b else s
  | none => b

/-- Python truthiness of an optional string. -/
def pyTruthy (a : Option String) : Bool :=
  match a with
  | some s => s ≠ ""
  | none => false

/-- Python `(x or None)`: an empty string collapses to `None`. -/
def pyOrNone (s : Option String) : Option String :=
  match s with
  | some "" => none
  | x => x

/-! ### Kernel-computable primitives

`Rat.add`/`Rat.mul` are irreducible and the core string functions (`trim`,
`toLower`, `splitOn`, `replace`, `toUpper`) recurse on byte positions, so none
of them evaluate inside the kernel.  The embedding therefore uses the
equivalent computable forms below; `qAdd_eq_add`/`qMul_eq_mul` connect the
arithmetic back to the standard operations. -/

/-- Rational addition through `mkRat` (equals `a + b`, see `qAdd_eq_add`). -/
def qAdd (a b : ℚ) : ℚ := mkRat (a.num * b.den + b.num * a.den) (a.den * b.den)

/-- Rational multiplication through `mkRat` (equals `a * b`, see `qMul_eq_mul`). -/
def qMul (a b : ℚ) : ℚ := mkRat (a.num * b.num) (a.den * b.den)

/-- Rational negation through `mkRat`. -/
def qNeg (a : ℚ) : ℚ := mkRat (-a.num) a.den

/-- The characters Python `str.isspace` accepts (and `str.strip()` removes):
ASCII 9-13 and 28-32, NEL, NBSP, Ogham space, the U+2000 range, line and
paragraph separators, narrow/medium spaces and the ideographic space. -/
def pyIsSpace (c : Char) : Bool :=
  let n := c.toNat
  (9 ≤ n && n ≤ 13) || (28 ≤ n && n ≤ 32) || n == 0x85 || n == 0xA0 || n == 0x1680
    || (0x2000 ≤ n && n ≤ 0x200A) || n == 0x2028 || n == 0x2029 || n == 0x202F
    || n == 0x205F || n == 0x3000

/-- Python `str.strip()` on a character list: drop whitespace at both ends. -/
def trimChars (cs : List Char) : List Char :=
  ((cs.dropWhile pyIsSpace).reverse.dropWhile pyIsSpace).reverse

/-- Python `str.lower()` (the tokens involved are ASCII). -/
def lowerChars (cs : List Char) : List Char := cs.map Char.toLower

/-- Python `str.split(",")`: the empty string yields one empty piece, and each
comma opens a new piece. -/
def splitComma : List Char → List (List Char)
  | [] => [[]]
  | c :: rest =>
    let r := splitComma rest
    if c = ',' then [] :: r
    else
      match r with
      | [] => [[c]]
      | h :: t => (c :: h) :: t

/-! ## Schedule parsing (`_parse_schedule`, retry_engine.py 29-56) -/

/-- Value of a digit list, most significant first (all characters digits). -/
def digitsToNat (cs : List Char) : ℕ :=
  cs.foldl (fun n c => 10 * n + (c.toNat - 48)) 0

/-- First codepoints of the Unicode 15.0 decimal-digit (category Nd) runs;
every run is ten consecutive codepoints for the digits 0-9.  CPython maps any
such digit to its ASCII value before parsing a number. -/
def ndRangeStarts : List Nat :=
  [0x30, 0x660, 0x6F0, 0x7C0, 0x966, 0x9E6, 0xA66, 0xAE6, 0xB66, 0xBE6,
   0xC66, 0xCE6, 0xD66, 0xDE6, 0xE50, 0xED0, 0xF20, 0x1040, 0x1090, 0x17E0,
   0x1810, 0x1946, 0x19D0, 0x1A80, 0x1A90, 0x1B50, 0x1BB0, 0x1C40, 0x1C50,
   0xA620, 0xA8D0, 0xA900, 0xA9D0, 0xA9F0, 0xAA50, 0xABF0, 0xFF10,
   0x104A0, 0x10D30, 0x11066, 0x110F0, 0x11136, 0x111D0, 0x112F0, 0x11450,
   0x114D0, 0x11650, 0x116C0, 0x11730, 0x118E0, 0x11950, 0x11C50, 0x11D50,
   0x11DA0, 0x11F50, 0x16A60, 0x16AC0, 0x16B50, 0x1D7CE, 0x1D7D8, 0x1D7E2,
   0x1D7EC, 0x1D7F6, 0x1E140, 0x1E2F0, 0x1E4F0, 0x1E950, 0x1FBF0]

/-- The decimal value of a Unicode decimal digit, `none` otherwise. -/
def pyDigitVal? (c : Char) : Option Nat :=
  (ndRangeStarts.find? (fun s => s ≤ c.toNat && c.toNat < s + 10)).map
    (fun s => c.toNat - s)

/-- CPython's transform applied to a string before numeric parsing: every
Unicode decimal digit becomes its ASCII digit and every Python-whitespace
character becomes a plain space; everything else is left unchanged. -/
def toAsciiDigit (c : Char) : Char :=
  match pyDigitVal? c with
  | some v => Char.ofNat (48 + v)
  | none => if pyIsSpace c then ' ' else c

/-- PEP 515 underscore handling in numeric strings: an underscore is legal
only directly between two digits; legal underscores are removed, an illegal
one rejects the whole string.  The flag records whether the previous
character was a digit. -/
def stripUnderscores : Bool → List Char → Option (List Char)
  | _, [] => some []
  | prev, '_' :: rest =>
      match prev, rest with
      | true, c :: _ => if c.isDigit then stripUnderscores false rest else none
      | _, _ => none
  | _, c :: rest => (stripUnderscores c.isDigit rest).map (fun l => c :: l)

/-- Exponent part after `e`/`E`: optional sign, then one or more digits. -/
def parseExp (cs : List Char) : Option ℤ :=
  match cs with
  | '+' :: ds => if ds ≠ [] ∧ ds.all Char.isDigit then some (digitsToNat ds : ℤ) else none
  | '-' :: ds => if ds ≠ [] ∧ ds.all Char.isDigit then some (-(digitsToNat ds : ℤ)) else none
  | ds => if ds ≠ [] ∧ ds.all Char.isDigit then some (digitsToNat ds : ℤ) else none

/-- Unsigned mantissa: `digits`, `digits.digits`, `digits.` or `.digits`,
as the exact rational `intPart.frac`. -/
def parseMantissa (cs : List Char) : Option ℚ :=
  let intPart := cs.takeWhile Char.isDigit
  let rest := cs.dropWhile Char.isDigit
  match rest with
  | [] => if intPart = [] then none else some (mkRat (digitsToNat intPart) 1)
  | '.' :: frac =>
      if frac.all Char.isDigit ∧ (intPart ≠ [] ∨ frac ≠ []) then
        some (mkRat (digitsToNat intPart * 10 ^ frac.length + digitsToNat frac)
          (10 ^ frac.length))
      else none
  | _ => none

/-- Scale a mantissa by `10 ^ e` for a signed decimal exponent. -/
def applyExp (m : ℚ) (e : ℤ) : ℚ :=
  match e with
  | .ofNat n => mkRat (m.num * ((10 : ℕ) ^ n : ℕ)) m.den
  | .negSucc n => mkRat m.num (m.den * 10 ^ (n + 1))

/-- Python `float(...)` on finite decimal strings, as an exact rational.
As CPython does, the string is first transformed (Unicode digits and
whitespace to ASCII), surrounding whitespace is dropped, PEP 515 underscores
are validated and removed, and then an optional sign, a mantissa and an
optional `e`/`E` exponent are parsed. -/
def pyFloat? (cs0 : List Char) : Option ℚ :=
  let cs1 := cs0.map toAsciiDigit
  let cs2 := ((cs1.dropWhile (fun c => c = ' ')).reverse.dropWhile (fun c => c = ' ')).reverse
  match stripUnderscores false cs2 with
  | none => none
  | some cs =>
    let signAndRest : Bool × List Char :=
      match cs with
      | '+' :: r => (false, r)
      | '-' :: r => (true, r)
      | r => (false, r)
    let mantExp := signAndRest.2.span (fun c => c ≠ 'e' ∧ c ≠ 'E')
    let value? : Option ℚ :=
      match mantExp.2 with
      | [] => parseMantissa mantExp.1
      | _ :: ecs => do
          let m ← parseMantissa mantExp.1
          let e ← parseExp ecs
          pure (applyExp m e)
    value?.map (fun v => if signAndRest.1 then qNeg v else v)

/-- Seconds per unit character; `none` mirrors the "Unknown schedule unit" skip. -/
def unitSeconds (c : Char) : Option ℚ :=
  if c = 's' then some 1
  else if c = 'm' then some 60
  else if c = 'h' then some 3600
  else if c = 'd' then some 86400
  else none

/-- One token of the schedule string: strip, lowercase, split `<number><unit>`;
`none` for a token the loop skips (empty, bad number, or unknown unit). -/
def parseToken (t : List Char) : Option ℚ :=
  let t := lowerChars (trimChars t)
  match t.getLast? with
  | none => none
  | some unit =>
      match pyFloat? t.dropLast, unitSeconds unit with
      | some n, some u => some (qMul n u)
      | _, _ => none

/-- The loop body of `_parse_schedule`: valid tokens in order, invalid skipped. -/
def parseDelays (tokens : List (List Char)) : List ℚ :=
  tokens.filterMap parseToken

/-- The fixed fallback triple: 15 minutes, 2 hours, 24 hours, in seconds. -/
def defaultDelays : List ℚ := [900, 7200, 86400]

/-- Token list: the default literals when the env value is absent or falsy;
otherwise strip the whole string and split it on commas. -/
def scheduleTokens (env : Option String) : List (List Char) :=
  match env with
  | none => (["15m", "2h", "24h"]).map String.data
  | some s =>
    if s = "" then (["15m", "2h", "24h"]).map String.data
    else splitComma (trimChars s.data)

/-- `_parse_schedule`: parse the configured tokens; fall back when nothing parsed. -/
def parseSchedule (env : Option String) : List ℚ :=
  let delays := parseDelays (scheduleTokens env)
  if delays = [] then defaultDelays else delays

/-! ## Retry Scheduler (`enqueue_retry`, retry_engine.py 79-128) -/

/-- The failure context handed to `enqueue_retry` as `payment_details`. -/
structure PaymentDetails where
  razorpay_payment_id : String
  customer_email : Option String
  customer_phone : Option String
  amount : Option Int
  currency : Option String
  failure_reason : Option String
  deriving DecidableEq, Repr

/-- Channel selection (retry_engine.py 89-95): chat when the default channel is
`whatsapp` and a phone is present; `email` when the default is `whatsapp` and
the phone is missing; otherwise the configured default channel unchanged. -/
def selectChannel (defaultChannel : String) (customer_phone : Option String) : String :=
  let phone := trimChars (pyOrStr customer_phone "").data
  if defaultChannel = "whatsapp" ∧ phone = [] then "email" else defaultChannel

/-- The rows created by the loop in `enqueue_retry`: for the `i`-th configured
delay (0-based), one row with `attempt_no = i + 1`, `scheduled_at` equal to the
clock read at that iteration plus the delay, status `scheduled`, and the id the
store hands back (ids are consumed one per iteration starting at `next_id`). -/
def enqueueRows (schedule : List ℚ) (channel : String) (nowAt : ℕ → ℚ)
    (merchant_id pid : String) (next_id : Nat) : List RecoveryAttemptRow :=
  schedule.enum.map (fun p =>
    { id := next_id + p.1
      merchant_id := merchant_id
      razorpay_payment_id := pid
      channel := channel
      attempt_no := p.1 + 1
      scheduled_at := qAdd (nowAt p.1) p.2
      status := .scheduled
      sent_at := none
      error := none })

/-- `enqueue_retry`: select the channel, insert one `recovery_attempts` row per
configured delay and arm one date job per inserted row.  The source performs no
lookup of existing attempts for the payment id before inserting. -/
def enqueue_retry (schedule : List ℚ) (defaultChannel : String) (nowAt : ℕ → ℚ)
    (sched : Sched) (payment_details : PaymentDetails) (merchant_id : String)
    (db : DB) : Sched × DB :=
  let channel := selectChannel defaultChannel payment_details.customer_phone
  let rows := enqueueRows schedule channel nowAt merchant_id
    payment_details.razorpay_payment_id db.next_id
  ({ sched with jobs := sched.jobs ++ rows.map (fun r => { id := r.id, runDate := r.scheduled_at }) },
   { db with
      recovery_attempts := db.recovery_attempts ++ rows
      next_id := db.next_id + schedule.length })

/-! ## Webhook handler (`razorpay_webhook`, app.py 123-194)

Only the two event branches after signature verification and JSON parsing are
modelled; the claims under study are about those branches. -/

/-- The `payload.payment.entity` fields the handler reads. -/
structure RawPayment where
  id : Option String
  email : Option String
  contact : Option String
  amount : Option Int
  currency : Option String
  error_description : Option String
  error_reason : Option String
  deriving DecidableEq, Repr

/-- The `event == "payment.failed"` branch (app.py 150-178): insert into
`payment_events` with `ON CONFLICT (razorpay_payment_id) DO NOTHING` — the
conflict target is the payment id alone — then call `enqueue_retry`
unconditionally.  Returns the scheduler, the store, and how many times
`enqueue_retry` was invoked (0 when there is no payment id). -/
def processPaymentFailed (schedule : List ℚ) (defaultChannel : String)
    (nowAt : ℕ → ℚ) (merchant_id : String) (payment : RawPayment)
    (sched : Sched) (db : DB) : Sched × DB × Nat :=
  match payment.id with
  | none => (sched, db, 0)
  | some pid =>
    if pid = "" then (sched, db, 0)
    else
      let phone := String.mk ((pyOrStr payment.contact "").data.filter (fun c => c ≠ '+'))
      let reason := pyOrStr payment.error_description (pyOrStr payment.error_reason "N/A")
      let db1 :=
        if db.payment_events.any (fun e => e.razorpay_payment_id == pid) then db
        else
          { db with payment_events := db.payment_events ++ [{
              merchant_id := merchant_id
              razorpay_payment_id := pid
              customer_email := payment.email
              customer_phone := some phone
              amount := payment.amount
              currency := payment.currency
              status := .failed
              failure_reason := some reason }] }
      let payment_details : PaymentDetails :=
        { razorpay_payment_id := pid
          customer_email := payment.email
          customer_phone := some phone
          amount := payment.amount
          currency := payment.currency
          failure_reason := some reason }
      let r := enqueue_retry schedule defaultChannel nowAt sched payment_details merchant_id db1
      (r.1, r.2, 1)

/-- The `event == "payment.captured"` branch (app.py 180-192): set
`payment_events.status = 'recovered'` for the matching failed row.  The branch
issues no statement touching `recovery_attempts`. -/
def processPaymentCaptured (merchant_id : String) (pid? : Option String) (db : DB) : DB :=
  match pid? with
  | none => db
  | some pid =>
    if pid = "" then db
    else
      { db with payment_events := db.payment_events.map (fun e =>
          if e.razorpay_payment_id == pid && e.merchant_id == merchant_id
              && e.status == EventStatus.failed
          then { e with status := .recovered } else e) }

/-- The startup handler `_start_sched` (app.py 28-33): under the lock, start the
scheduler if it is not running.  The body issues no database query; the store
argument records what was persisted when the process restarted, and the returned
list collects the attempt ids dispatched or re-armed during startup — none. -/
def start_sched (_db : DB) (s : Sched) : Sched × List Nat :=
  ((if s.running then s else { s with running := true }), [])

/-! ## Dispatch Executor (`_run_attempt_job`, retry_engine.py 134-215) -/

/-- The `PaymentCtx` dataclass (retry_engine.py 65-73). -/
structure PaymentCtx where
  merchant_id : String
  razorpay_payment_id : String
  customer_email : Option String
  customer_phone : Option String
  amount : Option Int
  currency : Option String
  failure_reason : Option String
  deriving DecidableEq, Repr

/-- `_normalize_msisdn` (retry_engine.py 243-250): `None`/empty stays `None`,
otherwise keep the digits and prefix `91` to a 10-digit number.  A value with
no digits becomes the empty string (not `None`), as in the source. -/
def normalize_msisdn (raw : Option String) : Option String :=
  match raw with
  | none => none
  | some r =>
    if r = "" then none
    else
      let s := String.mk (r.toList.filter Char.isDigit)
      some (if s.length = 10 then "91" ++ s else s)

/-- Two-digit zero-padded rendering of a number below 100. -/
def pad2 (n : ℕ) : String :=
  if n < 10 then "0" ++ toString n else toString n

/-- `_format_amount` (retry_engine.py 252-260): paise over 100 rendered with two
decimals, currency upper-cased, defaulting to INR; empty when no amount. -/
def format_amount (amount : Option Int) (currency : Option String) : String :=
  match amount with
  | none => ""
  | some a =>
    let cur := String.mk ((pyOrStr currency "INR").data.map Char.toUpper)
    let sign := if a < 0 then "-" else ""
    sign ++ toString (a.natAbs / 100) ++ "." ++ pad2 (a.natAbs % 100) ++ " " ++ cur

/-- `_compose_message` (retry_engine.py 262-273). -/
def compose_message (ctx : PaymentCtx) : String :=
  let amt := format_amount ctx.amount ctx.currency
  let reason := String.mk (trimChars (pyOrStr ctx.failure_reason "").data)
  String.intercalate "\n" (List.filterMap id
    [ some "Hi! Your payment attempt didn’t go through last time.",
      (if amt = "" then none else some ("Amount: " ++ amt)),
      (if reason = "" then none else some ("Reason: " ++ reason)),
      some "You can retry securely using the link we’ve shared with you. If you already paid, you can ignore this message.",
      some "— Team Tinko" ])

/-- Externally visible delivery actions performed while running one attempt. -/
inductive SendEffect
  | httpPost (destination : String) (message : String)
  | emailLog (address : String) (message : String)
  deriving DecidableEq, Repr

/-- Environment of the Gupshup provider module. -/
structure GupshupEnv where
  apiKeyConfigured : Bool
  appNameConfigured : Bool
  httpOk : Bool
  deriving DecidableEq, Repr

/-- Body of `send_whatsapp_message` (whatsapp_gupshup.py 10-33), as it executes
when invoked with its three parameters: returns the bare boolean `False` when
configuration is missing (no HTTP call) or when the HTTP call fails, `True`
otherwise.  The failure reason is only printed; the return value carries none. -/
def send_whatsapp_message (env : GupshupEnv) (phone_number template_id template_params : String) :
    Bool × List SendEffect :=
  if env.apiKeyConfigured = false ∨ env.appNameConfigured = false then (false, [])
  else
    let msg := "\x7b\"type\":\"template\",\"id\":\"" ++ template_id ++
      "\",\"params\":" ++ template_params ++ "\x7d"
    if env.httpOk then (true, [.httpPost phone_number msg])
    else (false, [.httpPost phone_number msg])

/-- Number of parameters of `send_whatsapp_message` (whatsapp_gupshup.py 10):
`phone_number`, `template_id`, `template_params`, all required positional. -/
def send_whatsapp_message_params : Nat := 3

/-- Number of positional arguments at the call site
`send_whatsapp_message(ctx.customer_phone, text)` (retry_engine.py 227). -/
def send_whatsapp_call_args : Nat := 2

/-- The message of the `TypeError` Python raises when binding the two supplied
arguments to the three required positional parameters; raised before the
function body runs, so no HTTP request is made. -/
def whatsappTypeError : String :=
  "send_whatsapp_message() missing 1 required positional argument: \x27template_params\x27"

/-- `_send_whatsapp` (retry_engine.py 221-227): guard availability and phone,
then call `send_whatsapp_message` with two positional arguments.  Since the
provider requires three, Python raises `TypeError` at argument binding, before
the provider body runs. -/
def send_whatsapp (hasWhatsapp : Bool) (ctx : PaymentCtx) (_text : String) :
    Except String (List SendEffect) :=
  if hasWhatsapp = false then
    .error "WhatsApp provider unavailable; install/configure message_providers.whatsapp_gupshup"
  else if pyTruthy ctx.customer_phone = false then
    .error "Missing customer phone for WhatsApp"
  else if send_whatsapp_call_args < send_whatsapp_message_params then
    .error whatsappTypeError
  else
    .ok []

/-- `_send_email` (retry_engine.py 229-237): a stub that raises on a missing
email and otherwise just logs — it always succeeds when an email is present. -/
def send_email (ctx : PaymentCtx) (text : String) : Except String (List SendEffect) :=
  if pyTruthy ctx.customer_email = false then
    .error "Missing customer email for Email channel"
  else
    .ok [.emailLog (ctx.customer_email.getD "") text]

/-- The SELECT of `_run_attempt_job` (retry_engine.py 143-166): the attempt row
by id joined with its parent payment event on (merchant_id, payment id). -/
def findAttemptJoined (db : DB) (attempt_id : Nat) :
    Option (RecoveryAttemptRow × PaymentEventRow) :=
  match db.recovery_attempts.find? (fun a => a.id == attempt_id) with
  | none => none
  | some a =>
    match db.payment_events.find? (fun e =>
        e.merchant_id == a.merchant_id
          && e.razorpay_payment_id == a.razorpay_payment_id) with
    | none => none
    | some e => some (a, e)

/-- `UPDATE recovery_attempts ... WHERE id = attempt_id`. -/
def updateAttempt (db : DB) (attempt_id : Nat)
    (f : RecoveryAttemptRow → RecoveryAttemptRow) : DB :=
  { db with recovery_attempts :=
      db.recovery_attempts.map (fun a => if a.id == attempt_id then f a else a) }

/-- `_run_attempt_job` (retry_engine.py 134-215): reload attempt plus payment
context (no-op when missing), compose the message, dispatch on the channel, and
record `sent` on success or `failed` with the captured error otherwise.  The
source consults the row's `status` nowhere in this function: dispatch and the
final UPDATE happen whatever the current status is. -/
def run_attempt_job (hasWhatsapp : Bool) (now : ℚ) (db : DB) (attempt_id : Nat) :
    DB × List SendEffect :=
  match findAttemptJoined db attempt_id with
  | none => (db, [])
  | some (attempt, pe) =>
    let ctx : PaymentCtx :=
      { merchant_id := attempt.merchant_id
        razorpay_payment_id := attempt.razorpay_payment_id
        customer_email := pyOrNone pe.customer_email
        customer_phone := normalize_msisdn pe.customer_phone
        amount := pe.amount
        currency := some (pyOrStr pe.currency "INR")
        failure_reason := pe.failure_reason }
    let text := compose_message ctx
    let outcome : Except String (List SendEffect) :=
      if attempt.channel = "whatsapp" then send_whatsapp hasWhatsapp ctx text
      else if attempt.channel = "email" then send_email ctx text
      else .error ("Unsupported channel: " ++ attempt.channel)
    match outcome with
    | .ok effs =>
        (updateAttempt db attempt_id (fun a =>
          { a with status := .sent, sent_at := some now }), effs)
    | .error e =>
        (updateAttempt db attempt_id (fun a =>
          { a with status := .failed, sent_at := some now, error := some e }), [])

/-! ## Concrete fixtures for the claim instances -/

/-- An empty store. -/
def emptyDB : DB := { payment_events := [], recovery_attempts := [], next_id := 0 }

/-- A running scheduler with no jobs. -/
def sched0 : Sched := { running := true, jobs := [] }

/-- A constant clock. -/
def clock0 : ℕ → ℚ := fun _ => 0

/-- A `payment.failed` payload with every field present. -/
def samplePayment : RawPayment :=
  { id := some "pay_1"
    email := some "cust@example.com"
    contact := some "+919876543210"
    amount := some 50000
    currency := some "INR"
    error_description := some "insufficient funds"
    error_reason := none }

/-- The failure context for `samplePayment`, with a phone number. -/
def samplePD : PaymentDetails :=
  { razorpay_payment_id := "pay_1"
    customer_email := some "cust@example.com"
    customer_phone := some "919876543210"
    amount := some 50000
    currency := some "INR"
    failure_reason := some "insufficient funds" }

/-- A failure context carrying no phone number. -/
def noPhonePD : PaymentDetails :=
  { razorpay_payment_id := "pay_2"
    customer_email := some "cust@example.com"
    customer_phone := none
    amount := some 50000
    currency := some "INR"
    failure_reason := some "insufficient funds" }

/-- State after one `payment.failed` delivery of `samplePayment` to merchant m1,
with the default schedule and default channel. -/
def afterFirstDelivery : Sched × DB × Nat :=
  processPaymentFailed (parseSchedule none) "whatsapp" clock0 "m1" samplePayment sched0 emptyDB

/-- State after the webhook handler processes the very same delivery again. -/
def afterSecondDelivery : Sched × DB × Nat :=
  processPaymentFailed (parseSchedule none) "whatsapp" clock0 "m1" samplePayment
    afterFirstDelivery.1 afterFirstDelivery.2.1

/-- A persisted failed event for merchant m1 and payment pay_1. -/
def eventRow1 : PaymentEventRow :=
  { merchant_id := "m1"
    razorpay_payment_id := "pay_1"
    customer_email := some "cust@example.com"
    customer_phone := some "919876543210"
    amount := some 50000
    currency := some "INR"
    status := .failed
    failure_reason := some "insufficient funds" }

/-- One email attempt row for `eventRow1`, with the given status, due at 100. -/
def emailAttempt (st : AttemptStatus) : RecoveryAttemptRow :=
  { id := 1
    merchant_id := "m1"
    razorpay_payment_id := "pay_1"
    channel := "email"
    attempt_no := 1
    scheduled_at := 100
    status := st
    sent_at := none
    error := none }

/-- One whatsapp attempt row for `eventRow1`, scheduled, due at 100. -/
def whatsappAttempt : RecoveryAttemptRow :=
  { id := 5
    merchant_id := "m1"
    razorpay_payment_id := "pay_1"
    channel := "whatsapp"
    attempt_no := 1
    scheduled_at := 100
    status := .scheduled
    sent_at := none
    error := none }

/-- A failed event with one attempt row in status `scheduled` at time 100. -/
def dbOneScheduled : DB :=
  { payment_events := [eventRow1]
    recovery_attempts := [emailAttempt .scheduled]
    next_id := 2 }

/-- The same event, with its single email attempt already `cancelled`. -/
def dbOneCancelled : DB :=
  { dbOneScheduled with recovery_attempts := [emailAttempt .cancelled] }

/-- The same event, with a single `whatsapp` attempt in status `scheduled`. -/
def dbWhatsappAttempt : DB :=
  { dbOneScheduled with recovery_attempts := [whatsappAttempt] }

/-! ## Bridging lemmas -/

/-- `qAdd` agrees with rational addition. -/
theorem qAdd_eq_add (a b : ℚ) : qAdd a b = a + b := (Rat.add_def' a b).symm

/-- `qMul` agrees with rational multiplication. -/
theorem qMul_eq_mul (a b : ℚ) : qMul a b = a * b := (Rat.mul_eq_mkRat a b).symm

/-- A successful joined lookup determines the `find?` on the attempts table. -/
theorem findAttemptJoined_attempt {db : DB} {aid : Nat} {a : RecoveryAttemptRow}
    {e : PaymentEventRow} (h : findAttemptJoined db aid = some (a, e)) :
    db.recovery_attempts.find? (fun r => r.id == aid) = some a := by
  unfold findAttemptJoined at h
  split at h
  · exact absurd h (by simp)
  · rename_i a' hfa
    split at h
    · exact absurd h (by simp)
    · rename_i e' hfe
      simp only [Option.some.injEq, Prod.mk.injEq] at h
      rw [← h.1]
      exact hfa

/-- An updated row stays in the table after `updateAttempt` on its id. -/
theorem updateAttempt_mem {db : DB} {aid : Nat} {f : RecoveryAttemptRow → RecoveryAttemptRow}
    {a : RecoveryAttemptRow} (ha : a ∈ db.recovery_attempts) (haid : a.id = aid) :
    f a ∈ (updateAttempt db aid f).recovery_attempts := by
  unfold updateAttempt
  have h : (fun r => if r.id == aid then f r else r) a = f a := by simp [haid]
  exact h ▸ List.mem_map_of_mem _ ha

/-- After `updateAttempt`, any row carrying the targeted id is the image of
some original row under the update. -/
theorem updateAttempt_target {db : DB} {aid : Nat}
    {f : RecoveryAttemptRow → RecoveryAttemptRow} :
    ∀ r ∈ (updateAttempt db aid f).recovery_attempts, r.id = aid →
      ∃ r0, r0.id = aid ∧ r = f r0 := by
  intro r hr hrid
  obtain ⟨a', ha'mem, rfl⟩ := List.mem_map.mp hr
  by_cases h : (a'.id == aid) = true
  · refine ⟨a', by simpa using h, ?_⟩
    simp [h]
  · exfalso
    simp only [h, if_false] at hrid
    exact absurd (by simpa using hrid) (by simpa using h)

/-! ## Claim theorems -/

/-- C1: the claim says two `payment.failed` deliveries for one
(merchant_id, gateway_payment_id) leave at most N attempt rows (N = length of
the configured delay list) and that enqueue refuses to insert for a payment id
that already has attempts.  The code has neither guard: processing the same
delivery twice drives `enqueue_retry` twice and leaves 2·N = 6 rows for the
event although the configured delay list has length N = 3. -/
theorem C1_second_delivery_doubles_attempts :
    (afterSecondDelivery.2.1.recovery_attempts.filter (fun a =>
        a.merchant_id == "m1" && a.razorpay_payment_id == "pay_1")).length = 6
    ∧ (parseSchedule none).length = 3 := by decide

/-- C2: the claim says processing a recovery signal leaves zero attempts of the
event in status `scheduled`.  In the code the `payment.captured` branch updates
only `payment_events`: the event transitions to `recovered`, yet its single
`scheduled` attempt is still `scheduled` afterwards. -/
theorem C2_captured_leaves_attempts_scheduled :
    ((processPaymentCaptured "m1" (some "pay_1") dbOneScheduled).payment_events.map
        (fun e => e.status) = [EventStatus.recovered])
    ∧ ((processPaymentCaptured "m1" (some "pay_1") dbOneScheduled).recovery_attempts.filter
        (fun a => a.status == AttemptStatus.scheduled)).length = 1 := by decide

/-- C3: the claim says a startup reconciliation sweep dispatches every
`scheduled` attempt whose `scheduled_at` lies in the past exactly once.  The
startup handler only starts the scheduler and issues no query: with one
persisted scheduled attempt already past due (time 100, restart at 200), the
set of attempts dispatched or re-armed at startup is empty. -/
theorem C3_startup_dispatches_nothing :
    ((dbOneScheduled.recovery_attempts.filter (fun a =>
        a.status == AttemptStatus.scheduled && decide (a.scheduled_at < 200))).length = 1)
    ∧ (start_sched dbOneScheduled { running := false, jobs := [] }).2 = [] := by decide

/-- C4: the claim says the executor does nothing when the attempt's status is
not `scheduled`.  `_run_attempt_job` never reads the status: fired on a
`cancelled` email attempt it performs one send effect and flips the row to
`sent`. -/
theorem C4_executor_ignores_status :
    ((run_attempt_job true 500 dbOneCancelled 1).1.recovery_attempts.map (fun a => a.status)
      = [AttemptStatus.sent])
    ∧ (run_attempt_job true 500 dbOneCancelled 1).2.length = 1 := by decide

/-- C7: the claim says a duplicate delivery yields exactly one successful
`enqueue` call in total.  The insert is indeed deduplicated (one
`payment_events` row after two identical deliveries — though the code's
conflict target is `razorpay_payment_id` alone, not the pair), but
`enqueue_retry` is invoked unconditionally on every delivery: two calls in
total. -/
theorem C7_one_row_but_two_enqueues :
    (afterSecondDelivery.2.1.payment_events.filter (fun e =>
        e.razorpay_payment_id == "pay_1")).length = 1
    ∧ afterFirstDelivery.2.2 + afterSecondDelivery.2.2 = 2 := by decide

/-- C8: the claim says adapters signal failure by raising or returning a typed
failure carrying a reason, never a bare boolean.  `send_whatsapp_message`
returns the bare boolean `False` — with missing configuration before any HTTP
call, and after a failed HTTP call — and the reason is only printed, so the
result carries none. -/
theorem C8_adapter_returns_bare_boolean :
    send_whatsapp_message ⟨false, true, true⟩ "919876543210" "tpl" "[]" = (false, [])
    ∧ (send_whatsapp_message ⟨true, true, false⟩ "919876543210" "tpl" "[]").1 = false := by decide

/-- C5 counterexample: with the delay list configured as "2h,15m" the code
inserts attempt 1 at now+7200s and attempt 2 at now+900s — `scheduled_at` is
decreasing in `attempt_no`, refuting the non-decreasing clause of the claim. -/
theorem C5_counterexample :
    ((enqueue_retry (parseSchedule (some "2h,15m")) "whatsapp" clock0 sched0 samplePD "m1"
        emptyDB).2.recovery_attempts.map (fun a => (a.attempt_no, a.scheduled_at))
      = [(1, 7200), (2, 900)])
    ∧ ¬ ((7200 : ℚ) ≤ 900) := by decide

/-- C6 counterexample: with no phone number and the default channel configured
as "sms", every attempt is created with channel "sms", not "email" — refuting
the "regardless of the configured default channel" clause of the claim. -/
theorem C6_counterexample :
    ((enqueue_retry defaultDelays "sms" clock0 sched0 noPhonePD "m1"
        emptyDB).2.recovery_attempts.map (fun a => a.channel) = ["sms", "sms", "sms"])
    ∧ ("sms" : String) ≠ "email" := by decide

/-- C5 (amended): for every failure context and every configuration, `enqueue`
inserts exactly N rows (N = length of the configured delay list) with
`attempt_no` contiguously 1..N and every row initially `scheduled` —
unconditionally; and whenever the configured delay list is non-decreasing (as
the default "15m,2h,24h" is) and the clock reads inside the loop are
non-decreasing, `scheduled_at` is non-decreasing in `attempt_no`. -/
theorem C5_enqueue_shape (schedule : List ℚ) (dc : String) (nowAt : ℕ → ℚ)
    (pd : PaymentDetails) (mid : String) (rows : List RecoveryAttemptRow)
    (hrows : rows = (enqueue_retry schedule dc nowAt sched0 pd mid emptyDB).2.recovery_attempts) :
    rows.length = schedule.length
    ∧ (∀ (i : ℕ) (hi : i < rows.length),
        (rows.get ⟨i, hi⟩).attempt_no = i + 1 ∧ (rows.get ⟨i, hi⟩).status = .scheduled)
    ∧ (schedule.Pairwise (· ≤ ·) → (∀ i j : ℕ, i ≤ j → nowAt i ≤ nowAt j) →
        ∀ (i j : ℕ) (hi : i < rows.length) (hj : j < rows.length), i ≤ j →
        (rows.get ⟨i, hi⟩).scheduled_at ≤ (rows.get ⟨j, hj⟩).scheduled_at) := by
  have hr : rows = enqueueRows schedule (selectChannel dc pd.customer_phone) nowAt mid
      pd.razorpay_payment_id 0 := by
    rw [hrows]; rfl
  subst hr
  have hlen : (enqueueRows schedule (selectChannel dc pd.customer_phone) nowAt mid
      pd.razorpay_payment_id 0).length = schedule.length := by
    simp [enqueueRows, List.enum_length]
  have hget : ∀ (i : ℕ) (hi : i < (enqueueRows schedule (selectChannel dc pd.customer_phone)
      nowAt mid pd.razorpay_payment_id 0).length),
      (enqueueRows schedule (selectChannel dc pd.customer_phone) nowAt mid
        pd.razorpay_payment_id 0).get ⟨i, hi⟩ =
      { id := 0 + i
        merchant_id := mid
        razorpay_payment_id := pd.razorpay_payment_id
        channel := selectChannel dc pd.customer_phone
        attempt_no := i + 1
        scheduled_at := qAdd (nowAt i) (schedule.get ⟨i, by rw [hlen] at hi; exact hi⟩)
        status := .scheduled
        sent_at := none
        error := none } := by
    intro i hi
    simp only [enqueueRows, List.get_eq_getElem, List.getElem_map, List.getElem_enum]
  refine ⟨hlen, ?_, ?_⟩
  · intro i hi
    rw [hget i hi]
    exact ⟨rfl, rfl⟩
  · intro hs hn i j hi hj hij
    rw [hget i hi, hget j hj]
    simp only [qAdd_eq_add]
    have h1 : nowAt i ≤ nowAt j := hn i j hij
    have h2 : schedule.get ⟨i, by rw [hlen] at hi; exact hi⟩ ≤
        schedule.get ⟨j, by rw [hlen] at hj; exact hj⟩ := by
      rcases Nat.lt_or_ge i j with h | h
      · exact List.pairwise_iff_getElem.mp hs i j _ _ h
      · have hji : i = j := Nat.le_antisymm hij h
        subst hji; exact le_refl _
    exact add_le_add h1 h2

/-- C5 witness: the amended statement instantiated at the default schedule,
the default channel, a constant clock and the sample failure context, with the
non-decreasing clause exercised through its discharged hypotheses. -/
theorem C5_enqueue_shape_witness :
    ((enqueue_retry (parseSchedule none) "whatsapp" clock0 sched0 samplePD "m1"
        emptyDB).2.recovery_attempts.length = (parseSchedule none).length)
    ∧ (∀ (i j : ℕ)
        (hi : i < (enqueue_retry (parseSchedule none) "whatsapp" clock0 sched0 samplePD "m1"
            emptyDB).2.recovery_attempts.length)
        (hj : j < (enqueue_retry (parseSchedule none) "whatsapp" clock0 sched0 samplePD "m1"
            emptyDB).2.recovery_attempts.length), i ≤ j →
        (((enqueue_retry (parseSchedule none) "whatsapp" clock0 sched0 samplePD "m1"
            emptyDB).2.recovery_attempts.get ⟨i, hi⟩).scheduled_at ≤
          ((enqueue_retry (parseSchedule none) "whatsapp" clock0 sched0 samplePD "m1"
            emptyDB).2.recovery_attempts.get ⟨j, hj⟩).scheduled_at)) :=
  ⟨(C5_enqueue_shape (parseSchedule none) "whatsapp" clock0 samplePD "m1" _ rfl).1,
   (C5_enqueue_shape (parseSchedule none) "whatsapp" clock0 samplePD "m1" _ rfl).2.2
     (by decide) (fun i j h => le_refl 0)⟩

/-- C6 (amended): with a phone number present and the default channel
configured as the chat channel (whatsapp), every attempt uses whatsapp; with no
phone number present, every attempt uses email provided the configured default
channel is whatsapp or email — a default of "sms" is used unchanged even
without a phone, which is what the counterexample forces the claim to allow. -/
theorem C6_channel_selection (schedule : List ℚ) (dc : String) (nowAt : ℕ → ℚ)
    (pd : PaymentDetails) (mid : String) (rows : List RecoveryAttemptRow)
    (hrows : rows = (enqueue_retry schedule dc nowAt sched0 pd mid emptyDB).2.recovery_attempts) :
    ((trimChars (pyOrStr pd.customer_phone "").data ≠ [] ∧ dc = "whatsapp") →
        ∀ r ∈ rows, r.channel = "whatsapp")
    ∧ ((trimChars (pyOrStr pd.customer_phone "").data = [] ∧ (dc = "whatsapp" ∨ dc = "email")) →
        ∀ r ∈ rows, r.channel = "email") := by
  have hch : ∀ r ∈ rows, r.channel = selectChannel dc pd.customer_phone := by
    subst hrows
    intro r hr
    have hr' : r ∈ enqueueRows schedule (selectChannel dc pd.customer_phone) nowAt mid
        pd.razorpay_payment_id 0 := hr
    obtain ⟨p, _, rfl⟩ := List.mem_map.mp hr'
    rfl
  constructor
  · rintro ⟨hphone, rfl⟩ r hr
    rw [hch r hr]
    simp [selectChannel, hphone]
  · rintro ⟨hphone, hdc⟩ r hr
    rw [hch r hr]
    rcases hdc with rfl | rfl
    · simp [selectChannel, hphone]
    · simp [selectChannel]

/-- C6 witness: the amended statement applied with a phone and default
whatsapp (all attempts whatsapp), and with no phone and default whatsapp (all
attempts email). -/
theorem C6_channel_selection_witness :
    (∀ r ∈ (enqueue_retry defaultDelays "whatsapp" clock0 sched0 samplePD "m1"
        emptyDB).2.recovery_attempts, r.channel = "whatsapp")
    ∧ (∀ r ∈ (enqueue_retry defaultDelays "whatsapp" clock0 sched0 noPhonePD "m1"
        emptyDB).2.recovery_attempts, r.channel = "email") :=
  ⟨(C6_channel_selection defaultDelays "whatsapp" clock0 samplePD "m1" _ rfl).1
      ⟨by decide, rfl⟩,
   (C6_channel_selection defaultDelays "whatsapp" clock0 noPhonePD "m1" _ rfl).2
      ⟨by decide, Or.inl rfl⟩⟩

/-- C10: for a dispatched attempt on channel whatsapp whose joined payment
event yields a truthy normalized phone, with the provider module imported, the
two-argument call into the three-parameter `send_whatsapp_message` raises
`TypeError` before the provider body runs: the executor performs no send
effect (no HTTP request) and marks the attempt `failed` with the `TypeError`
message in its error field. -/
theorem C10_whatsapp_dispatch_type_error (hasW : Bool) (now : ℚ) (db : DB) (aid : Nat)
    (a : RecoveryAttemptRow) (e : PaymentEventRow)
    (hfind : findAttemptJoined db aid = some (a, e))
    (hch : a.channel = "whatsapp")
    (hW : hasW = true)
    (hphone : pyTruthy (normalize_msisdn e.customer_phone) = true) :
    (run_attempt_job hasW now db aid).2 = []
    ∧ (∃ r ∈ (run_attempt_job hasW now db aid).1.recovery_attempts, r.id = aid)
    ∧ (∀ r ∈ (run_attempt_job hasW now db aid).1.recovery_attempts,
        r.id = aid → r.status = .failed ∧ r.error = some whatsappTypeError) := by
  subst hW
  have hfa : db.recovery_attempts.find? (fun r => r.id == aid) = some a :=
    findAttemptJoined_attempt hfind
  have haid : a.id = aid := by
    have h2 := List.find?_some hfa
    simpa using h2
  have hamem : a ∈ db.recovery_attempts := List.mem_of_find?_eq_some hfa
  have houtcome : run_attempt_job true now db aid
      = (updateAttempt db aid (fun r =>
          { r with status := .failed, sent_at := some now, error := some whatsappTypeError }), []) := by
    unfold run_attempt_job
    rw [hfind]
    simp only [send_whatsapp, hch, hphone, send_whatsapp_call_args, send_whatsapp_message_params]
    norm_num
  rw [houtcome]
  refine ⟨rfl, ⟨_, updateAttempt_mem hamem haid, haid⟩, ?_⟩
  intro r hr hrid
  obtain ⟨r0, hr0, rfl⟩ := updateAttempt_target
    (f := fun r => { r with status := .failed, sent_at := some now, error := some whatsappTypeError })
    r hr hrid
  exact ⟨rfl, rfl⟩

/-- C10 witness: the theorem applied to a store holding one scheduled whatsapp
attempt (id 5) joined to its failed payment event. -/
theorem C10_whatsapp_dispatch_type_error_witness :
    (run_attempt_job true 500 dbWhatsappAttempt 5).2 = []
    ∧ (∃ r ∈ (run_attempt_job true 500 dbWhatsappAttempt 5).1.recovery_attempts, r.id = 5)
    ∧ (∀ r ∈ (run_attempt_job true 500 dbWhatsappAttempt 5).1.recovery_attempts,
        r.id = 5 → r.status = .failed ∧ r.error = some whatsappTypeError) :=
  C10_whatsapp_dispatch_type_error true 500 dbWhatsappAttempt 5 whatsappAttempt eventRow1
    (by decide) (by decide) rfl (by decide)

end Tinko
